import Mathlib

/-!
Shallow embedding of `src/lib/extension/src/ai/AIClient.ts` (rubberduck-vscode).

The TypeScript client is modelled as follows:
- `AIClient` keeps only its mutable state, the stored base URL; the injected
  collaborators (`ApiKeyManager`, `Logger`, the vscode configuration, and the
  modelfusion network layer) are modelled by an `Env` value that fixes what
  each external call returns on this run.
- A JavaScript promise rejection is the `Except.error` channel of the result;
  an async function that always resolves returns `Except.ok`.
- Observable side effects (logger calls, network dispatches, `console.log`)
  are recorded in an ordered event trace returned next to the result.
- Embedding vector components are carried as `Rat`: the client never computes
  with them, it only passes them through, so the scalar carrier is irrelevant.
-/

/-- `new OpenAIApiConfiguration({ baseUrl, apiKey })`. -/
structure OpenAIApiConfiguration where
  baseUrl : String
  apiKey : String
deriving DecidableEq

/-- The settings object built in `streamText` and handed to the network layer:
`new OpenAIChatModel({ api, model, maxCompletionTokens, temperature,
frequencyPenalty, presencePenalty, stopSequences })`. -/
structure OpenAIChatSettings where
  api : OpenAIApiConfiguration
  model : String
  maxCompletionTokens : Int
  temperature : Rat
  frequencyPenalty : Rat
  presencePenalty : Rat
  stopSequences : Option (List String)
deriving DecidableEq

/-- Events observable from outside the client, in the order they happen.
`log` is a `Logger.log` call, `networkChat` / `networkEmbed` are dispatches to
the provider network layer, `consoleLog` is the `console.log(error)` in the
embedding catch block (carrying the extracted `error?.message`). -/
inductive Event where
  | log (lines : List String)
  | networkChat (settings : OpenAIChatSettings) (prompt : String)
  | networkEmbed (model : String) (api : OpenAIApiConfiguration) (input : String)
  | consoleLog (message : Option String)
deriving DecidableEq

/-- The `usage` object of one record of the embedding response. -/
structure EmbeddingUsage where
  total_tokens : Int
deriving DecidableEq

/-- One record of the `response` array of `embed(...).asFullResponse()`;
the code reads `response[0]!.usage.total_tokens`. -/
structure EmbeddingResponseRecord where
  usage : EmbeddingUsage
deriving DecidableEq

/-- Injected outcome of the streamed chat network call: either a stream of
chunks or a rejection carrying `error?.message` (possibly absent). -/
inductive ChatNetResult where
  | ok (chunks : List String)
  | fail (message : Option String)
deriving DecidableEq

/-- Injected outcome of the blocking embedding network call: either
`{ output, response }` or a rejection carrying `error?.message`. -/
inductive EmbedNetResult where
  | ok (output : List Rat) (response : List EmbeddingResponseRecord)
  | fail (message : Option String)
deriving DecidableEq

/-- The external collaborators for one run: what
`apiKeyManager.getOpenAIApiKey()` resolves to, what the vscode configuration
key `rubberduck.model` holds, and the stubbed network layer outcomes. -/
structure Env where
  apiKey : Option String
  configuredModel : String
  chatNet : ChatNetResult
  embedNet : EmbedNetResult
deriving DecidableEq

/-- The errors the client can raise, by throw site: `missingCredential` is the
`new Error(...)` in `getOpenAIApiConfiguration`, `configurationError` is the
ZodError from `z.enum([...]).parse` in `getOpenAIChatModel`, and
`providerError` is any rejection from the modelfusion network layer (its
`message` may be absent, as in `error?.message`). -/
inductive AIError where
  | missingCredential (message : String)
  | configurationError (invalidModel : String)
  | providerError (message : Option String)
deriving DecidableEq

/-- Models zod's generated ZodError message for an invalid enum value; the
client never inspects this text. -/
def zodInvalidEnumMessage (received : String) : String :=
  "Invalid enum value. Received " ++ received

/-- `error?.message` of the thrown JavaScript error. -/
def AIError.jsMessage : AIError → Option String
  | AIError.missingCredential message => some message
  | AIError.configurationError invalidModel => some (zodInvalidEnumMessage invalidModel)
  | AIError.providerError message => message

/-- The message of the `Error` thrown when no API key is found. -/
def missingCredentialMessage : String :=
  "No OpenAI API key found. Please enter your OpenAI API key with the \x27Rubberduck: Enter OpenAI API key\x27 command."

/-- Models V8's TypeError message for `response[0]!.usage` when the response
array is empty; the client never inspects this text. -/
def undefinedReadMessage : String :=
  "Cannot read properties of undefined (reading \x27usage\x27)"

/-- Whether the string ends in the character `/` (what the anchored regex
`\/$` of the source matches). -/
def hasTrailingSlash (s : String) : Bool :=
  s.data.getLast? == some '/'

/-- `url.replace(/\/$/, "")`: removes the final character when it is a slash
(the regex matches exactly one trailing slash), otherwise leaves the string
unchanged. -/
def stripTrailingSlash (url : String) : String :=
  if hasTrailingSlash url then ⟨url.data.dropLast⟩ else url

/-- Whether the string ends in two consecutive slashes. -/
def endsWithDoubleSlash (s : String) : Bool :=
  (s.data.getLast? == some '/') && (s.data.dropLast.getLast? == some '/')

/-- The client state: only the stored base URL is mutable state in the source;
the injected collaborators live in `Env`. -/
structure AIClient where
  openAIBaseUrl : String
deriving DecidableEq

/-- The constructor: stores the base URL with one trailing slash stripped
(`this.openAIBaseUrl = openAIBaseUrl.replace(/\/$/, "")`). -/
def AIClient.create (openAIBaseUrl : String) : AIClient :=
  ⟨stripTrailingSlash openAIBaseUrl⟩

/-- `setOpenAIBaseUrl`: replaces the stored base URL, same normalization. -/
def AIClient.setOpenAIBaseUrl (_c : AIClient) (openAIBaseUrl : String) : AIClient :=
  ⟨stripTrailingSlash openAIBaseUrl⟩

/-- Construction followed by a sequence of `setOpenAIBaseUrl` calls. -/
def runBaseUrlOps (init : String) (ops : List String) : AIClient :=
  ops.foldl (fun c u => c.setOpenAIBaseUrl u) (AIClient.create init)

/-- The fixed enumeration `z.enum(["gpt-4", "gpt-4-32k", "gpt-3.5-turbo",
"gpt-3.5-turbo-16k"])`. -/
def supportedChatModels : List String :=
  ["gpt-4", "gpt-4-32k", "gpt-3.5-turbo", "gpt-3.5-turbo-16k"]

/-- `getOpenAIChatModel`: parses the configured model against the fixed enum;
an out-of-enumeration value throws a ZodError. -/
def getOpenAIChatModel (env : Env) : Except AIError String :=
  if supportedChatModels.contains env.configuredModel then
    Except.ok env.configuredModel
  else
    Except.error (AIError.configurationError env.configuredModel)

/-- `getOpenAIApiConfiguration`: awaits the API key; throws the
missing-credential `Error` when it is `undefined`, otherwise builds a fresh
`OpenAIApiConfiguration` from the stored base URL and the key. -/
def AIClient.getOpenAIApiConfiguration (c : AIClient) (env : Env) :
    Except AIError OpenAIApiConfiguration :=
  match env.apiKey with
  | none => Except.error (AIError.missingCredential missingCredentialMessage)
  | some apiKey => Except.ok ⟨c.openAIBaseUrl, apiKey⟩

/-- The argument object of `streamText`; `stop` and `temperature` are the
optional parameters (`temperature = 0` is the destructuring default). -/
structure CompletionRequest where
  prompt : String
  maxTokens : Int
  stop : Option (List String)
  temperature : Option Rat
deriving DecidableEq

/-- `streamText`: logs the prompt bracketed by the fixed markers, then awaits
the configuration (credential first, in JS property-evaluation order), then
validates the model, then dispatches the streamed request with frequency and
presence penalty fixed at 0. Errors propagate as rejections. -/
def AIClient.streamText (c : AIClient) (env : Env) (req : CompletionRequest) :
    Except AIError (List String) × List Event :=
  let logEvent := Event.log
    ["--- Start OpenAI prompt ---", req.prompt, "--- End OpenAI prompt ---"]
  match c.getOpenAIApiConfiguration env with
  | Except.error e => (Except.error e, [logEvent])
  | Except.ok api =>
    match getOpenAIChatModel env with
    | Except.error e => (Except.error e, [logEvent])
    | Except.ok model =>
      let settings : OpenAIChatSettings :=
        ⟨api, model, req.maxTokens, req.temperature.getD 0, 0, 0, req.stop⟩
      match env.chatNet with
      | ChatNetResult.ok chunks =>
          (Except.ok chunks, [logEvent, Event.networkChat settings req.prompt])
      | ChatNetResult.fail m =>
          (Except.error (AIError.providerError m),
           [logEvent, Event.networkChat settings req.prompt])

/-- The fixed embedding model identifier. -/
def embeddingModelName : String := "text-embedding-ada-002"

/-- The tagged result of `generateEmbedding`: `{ type: "success", embedding,
totalTokenCount }` or `{ type: "error", errorMessage }`. -/
inductive EmbeddingResult where
  | success (embedding : List Rat) (totalTokenCount : Int)
  | error (errorMessage : Option String)
deriving DecidableEq

/-- The try-block of `generateEmbedding`: awaits the configuration, dispatches
the embedding call against the fixed model, and reads
`response[0]!.usage.total_tokens` (an empty response array makes the read of
`.usage` throw a TypeError). Any failure escapes as a thrown error. -/
def AIClient.embedAttempt (c : AIClient) (env : Env) (input : String) :
    Except AIError (List Rat × Int) × List Event :=
  match c.getOpenAIApiConfiguration env with
  | Except.error e => (Except.error e, [])
  | Except.ok api =>
    let call := Event.networkEmbed embeddingModelName api input
    match env.embedNet with
    | EmbedNetResult.fail m => (Except.error (AIError.providerError m), [call])
    | EmbedNetResult.ok output response =>
      match response.head? with
      | some r => (Except.ok (output, r.usage.total_tokens), [call])
      | none =>
          (Except.error (AIError.providerError (some undefinedReadMessage)), [call])

/-- `generateEmbedding`: the try-block wrapped in the catch-all that logs the
raw error to the console and converts it to the `error` variant carrying
`error?.message`; the returned promise therefore always resolves. -/
def AIClient.generateEmbedding (c : AIClient) (env : Env) (input : String) :
    Except AIError EmbeddingResult × List Event :=
  match c.embedAttempt env input with
  | (Except.ok (output, total), tr) =>
      (Except.ok (EmbeddingResult.success output total), tr)
  | (Except.error e, tr) =>
      (Except.ok (EmbeddingResult.error e.jsMessage),
       tr ++ [Event.consoleLog e.jsMessage])

/-- Whether an event is a dispatch to the provider network layer. -/
def Event.isNetworkCall : Event → Bool
  | Event.networkChat _ _ => true
  | Event.networkEmbed _ _ _ => true
  | _ => false

/-- Whether an event is a `Logger.log` call. -/
def Event.isLog : Event → Bool
  | Event.log _ => true
  | _ => false

/-- The network-call counter of the spec: how many network dispatches a trace
contains. -/
def networkCallCount (tr : List Event) : Nat :=
  (tr.filter Event.isNetworkCall).length

/-- Whether an operation outcome is a rejection (a raised error). -/
def isRejection {α : Type} : Except AIError α → Bool
  | Except.error _ => true
  | Except.ok _ => false

/-- Whether an operation outcome is a rejection with a `ConfigurationError`. -/
def rejectsWithConfigurationError {α : Type} : Except AIError α → Bool
  | Except.error (AIError.configurationError _) => true
  | _ => false

/-! ### Evaluation lemmas for the two operations -/

/-- The operation outcome of the streamed chat dispatch: the stream on
success, the raw provider rejection on failure. -/
def chatDispatchResult (net : ChatNetResult) : Except AIError (List String) :=
  match net with
  | ChatNetResult.ok chunks => Except.ok chunks
  | ChatNetResult.fail m => Except.error (AIError.providerError m)

lemma streamText_missingKey (c : AIClient) (env : Env) (req : CompletionRequest)
    (h : env.apiKey = none) :
    c.streamText env req =
      (Except.error (AIError.missingCredential missingCredentialMessage),
       [Event.log ["--- Start OpenAI prompt ---", req.prompt, "--- End OpenAI prompt ---"]]) := by
  unfold AIClient.streamText AIClient.getOpenAIApiConfiguration
  rw [h]

lemma streamText_badModel (c : AIClient) (env : Env) (req : CompletionRequest)
    (k : String) (hk : env.apiKey = some k)
    (hm : supportedChatModels.contains env.configuredModel = false) :
    c.streamText env req =
      (Except.error (AIError.configurationError env.configuredModel),
       [Event.log ["--- Start OpenAI prompt ---", req.prompt, "--- End OpenAI prompt ---"]]) := by
  unfold AIClient.streamText AIClient.getOpenAIApiConfiguration getOpenAIChatModel
  rw [hk, hm]
  rfl

lemma streamText_dispatch (c : AIClient) (env : Env) (req : CompletionRequest)
    (k : String) (hk : env.apiKey = some k)
    (hm : supportedChatModels.contains env.configuredModel = true) :
    c.streamText env req =
      (chatDispatchResult env.chatNet,
       [Event.log ["--- Start OpenAI prompt ---", req.prompt, "--- End OpenAI prompt ---"],
        Event.networkChat
          ⟨⟨c.openAIBaseUrl, k⟩, env.configuredModel, req.maxTokens,
           req.temperature.getD 0, 0, 0, req.stop⟩
          req.prompt]) := by
  unfold AIClient.streamText AIClient.getOpenAIApiConfiguration getOpenAIChatModel
  rw [hk, hm]
  cases hch : env.chatNet <;> rfl

lemma generateEmbedding_eq (c : AIClient) (env : Env) (input : String) :
    (c.generateEmbedding env input).1 =
      Except.ok
        (match env.apiKey, env.embedNet with
         | none, _ => EmbeddingResult.error (some missingCredentialMessage)
         | some _, EmbedNetResult.fail m => EmbeddingResult.error m
         | some _, EmbedNetResult.ok output response =>
             match response.head? with
             | some r => EmbeddingResult.success output r.usage.total_tokens
             | none => EmbeddingResult.error (some undefinedReadMessage)) := by
  obtain ⟨key, model, chat, emb⟩ := env
  cases key with
  | none => rfl
  | some k =>
    cases emb with
    | fail m => rfl
    | ok output response =>
      cases response with
      | nil => rfl
      | cons r rest => rfl

lemma generateEmbedding_missingKey (c : AIClient) (env : Env) (input : String)
    (h : env.apiKey = none) :
    c.generateEmbedding env input =
      (Except.ok (EmbeddingResult.error (some missingCredentialMessage)),
       [Event.consoleLog (some missingCredentialMessage)]) := by
  unfold AIClient.generateEmbedding AIClient.embedAttempt AIClient.getOpenAIApiConfiguration
  rw [h]
  rfl

/-! ### Base-URL normalization lemmas -/

lemma hasTrailingSlash_stripTrailingSlash (s : String)
    (h : endsWithDoubleSlash s = false) :
    hasTrailingSlash (stripTrailingSlash s) = false := by
  unfold stripTrailingSlash
  by_cases hs : hasTrailingSlash s
  · rw [if_pos hs]
    unfold hasTrailingSlash at hs ⊢
    unfold endsWithDoubleSlash at h
    simp only [Bool.and_eq_false_iff] at h
    rcases h with h | h
    · simp [hs] at h
    · exact h
  · rw [if_neg hs]
    simpa using hs

lemma runBaseUrlOps_foldl_invariant (ops : List String) (acc : AIClient)
    (hacc : hasTrailingSlash acc.openAIBaseUrl = false)
    (hops : ∀ s ∈ ops, endsWithDoubleSlash s = false) :
    hasTrailingSlash
      ((ops.foldl (fun c u => c.setOpenAIBaseUrl u) acc).openAIBaseUrl) = false := by
  induction ops generalizing acc with
  | nil => exact hacc
  | cons x xs ih =>
    apply ih
    · exact hasTrailingSlash_stripTrailingSlash x (hops x (by simp))
    · intro s hs
      exact hops s (by simp [hs])

/-- Claim C4 counterexample: constructing the client with a base URL ending in
two slashes leaves a stored base URL that still ends in a trailing slash, so
the invariant as stated fails. -/
theorem C4_trailing_slash_invariant_counterexample :
    (AIClient.create "https://api.openai.com/v1//").openAIBaseUrl
        = "https://api.openai.com/v1/" ∧
    hasTrailingSlash (AIClient.create "https://api.openai.com/v1//").openAIBaseUrl
        = true := by
  constructor <;> decide

/-- Claim C4 (amended): after construction with any initial base URL and any
sequence of `setOpenAIBaseUrl` calls, the stored base URL never ends in a
trailing slash, provided no supplied string ends in two consecutive slashes
(each mutation strips exactly one trailing slash, so a string ending in two or
more slashes keeps a trailing slash). -/
theorem C4_trailing_slash_invariant_amended (init : String) (ops : List String)
    (h : ∀ s ∈ init :: ops, endsWithDoubleSlash s = false) :
    hasTrailingSlash (runBaseUrlOps init ops).openAIBaseUrl = false := by
  unfold runBaseUrlOps
  apply runBaseUrlOps_foldl_invariant
  · exact hasTrailingSlash_stripTrailingSlash init (h init (by simp))
  · intro s hs
    exact h s (by simp [hs])

theorem C4_trailing_slash_invariant_amended_witness :
    hasTrailingSlash
      (runBaseUrlOps "https://api.openai.com/v1/"
        ["http://localhost:1234", "https://b.example/x/"]).openAIBaseUrl = false :=
  C4_trailing_slash_invariant_amended "https://api.openai.com/v1/"
    ["http://localhost:1234", "https://b.example/x/"] (by decide)

/-- Claim C5: both the constructor and `setOpenAIBaseUrl` store
`stripTrailingSlash` of their argument; a string ending in exactly one slash
has exactly that final character removed (leaving no trailing slash), a string
not ending in a slash is unchanged, and a string ending in two slashes has
exactly one removed, leaving one trailing slash. -/
theorem C5_normalization_behavior (c : AIClient) (s : String) :
    (AIClient.create s).openAIBaseUrl = stripTrailingSlash s ∧
    (c.setOpenAIBaseUrl s).openAIBaseUrl = stripTrailingSlash s ∧
    (hasTrailingSlash s = false → stripTrailingSlash s = s) ∧
    (hasTrailingSlash s = true → (stripTrailingSlash s).data = s.data.dropLast) ∧
    (hasTrailingSlash s = true → endsWithDoubleSlash s = false →
      hasTrailingSlash (stripTrailingSlash s) = false) ∧
    (endsWithDoubleSlash s = true →
      (stripTrailingSlash s).data = s.data.dropLast ∧
      hasTrailingSlash (stripTrailingSlash s) = true) := by
  refine ⟨rfl, rfl, ?_, ?_, ?_, ?_⟩
  · intro h
    unfold stripTrailingSlash
    rw [h]
    rfl
  · intro h
    unfold stripTrailingSlash
    rw [h]
    rfl
  · intro _ h2
    exact hasTrailingSlash_stripTrailingSlash s h2
  · intro h
    unfold endsWithDoubleSlash at h
    simp only [Bool.and_eq_true] at h
    obtain ⟨h1, h2⟩ := h
    have hs : hasTrailingSlash s = true := h1
    constructor
    · unfold stripTrailingSlash
      rw [hs]
      rfl
    · unfold stripTrailingSlash
      rw [hs]
      unfold hasTrailingSlash
      exact h2

theorem C5_normalization_behavior_witness :
    stripTrailingSlash "https://a" = "https://a" ∧
    (stripTrailingSlash "https://a/").data = "https://a/".data.dropLast ∧
    hasTrailingSlash (stripTrailingSlash "https://a/") = false ∧
    (stripTrailingSlash "https://a//").data = "https://a//".data.dropLast ∧
    hasTrailingSlash (stripTrailingSlash "https://a//") = true := by
  refine ⟨(C5_normalization_behavior (AIClient.create "") "https://a").2.2.1 (by decide),
    (C5_normalization_behavior (AIClient.create "") "https://a/").2.2.2.1 (by decide),
    (C5_normalization_behavior (AIClient.create "") "https://a/").2.2.2.2.1
      (by decide) (by decide),
    ((C5_normalization_behavior (AIClient.create "") "https://a//").2.2.2.2.2
      (by decide)).1,
    ((C5_normalization_behavior (AIClient.create "") "https://a//").2.2.2.2.2
      (by decide)).2⟩

/-- Claim C1: `generateEmbedding` never raises — for every input string and
every injected failure (credential absent, network/provider error) the
promise resolves to a tagged outcome, and on failure it is the error variant
whose message is the failure's description when available (`error?.message`),
otherwise none. -/
theorem C1_generateEmbedding_never_raises (c : AIClient) (env : Env) (input : String) :
    isRejection (c.generateEmbedding env input).1 = false ∧
    (env.apiKey = none →
      (c.generateEmbedding env input).1 =
        Except.ok (EmbeddingResult.error (some missingCredentialMessage))) ∧
    (∀ k m, env.apiKey = some k → env.embedNet = EmbedNetResult.fail m →
      (c.generateEmbedding env input).1 = Except.ok (EmbeddingResult.error m)) := by
  refine ⟨?_, ?_, ?_⟩
  · rw [generateEmbedding_eq]
    rfl
  · intro h
    rw [generateEmbedding_eq, h]
  · intro k m hk hn
    rw [generateEmbedding_eq, hk, hn]

theorem C1_generateEmbedding_never_raises_witness :
    ((AIClient.create "https://api.openai.com/v1/").generateEmbedding
        ⟨none, "gpt-4", ChatNetResult.ok [], EmbedNetResult.fail (some "network down")⟩
        "hello").1 =
      Except.ok (EmbeddingResult.error (some missingCredentialMessage)) ∧
    ((AIClient.create "https://api.openai.com/v1/").generateEmbedding
        ⟨some "sk-test", "gpt-4", ChatNetResult.ok [],
         EmbedNetResult.fail (some "network down")⟩
        "hello").1 =
      Except.ok (EmbeddingResult.error (some "network down")) :=
  ⟨(C1_generateEmbedding_never_raises (AIClient.create "https://api.openai.com/v1/")
      ⟨none, "gpt-4", ChatNetResult.ok [], EmbedNetResult.fail (some "network down")⟩
      "hello").2.1 rfl,
   (C1_generateEmbedding_never_raises (AIClient.create "https://api.openai.com/v1/")
      ⟨some "sk-test", "gpt-4", ChatNetResult.ok [],
       EmbedNetResult.fail (some "network down")⟩
      "hello").2.2 "sk-test" (some "network down") rfl rfl⟩

/-- Claim C2 counterexample: with the credential absent, `generateEmbedding`
does not raise `MissingCredential` to the caller — the promise resolves,
carrying the tagged error variant instead. -/
theorem C2_validation_raise_counterexample :
    isRejection ((AIClient.create "https://api.openai.com/v1/").generateEmbedding
        ⟨none, "gpt-4", ChatNetResult.ok [], EmbedNetResult.ok [] []⟩ "x").1 = false ∧
    ((AIClient.create "https://api.openai.com/v1/").generateEmbedding
        ⟨none, "gpt-4", ChatNetResult.ok [], EmbedNetResult.ok [] []⟩ "x").1 =
      Except.ok (EmbeddingResult.error (some missingCredentialMessage)) := by
  constructor <;> rfl

/-- Claim C2 (amended): validation failures surface before any network I/O in
both operations; `streamText` raises them to the caller (`MissingCredential`
when the credential is absent, `ConfigurationError` when the model is out of
the enumeration), while `generateEmbedding` catches `MissingCredential`
internally and resolves with the tagged error variant — still with no network
call attempted. -/
theorem C2_validation_raise_amended (c : AIClient) (env : Env)
    (req : CompletionRequest) (input : String) :
    (env.apiKey = none →
      (c.streamText env req).1 =
        Except.error (AIError.missingCredential missingCredentialMessage) ∧
      networkCallCount (c.streamText env req).2 = 0 ∧
      (c.generateEmbedding env input).1 =
        Except.ok (EmbeddingResult.error (some missingCredentialMessage)) ∧
      networkCallCount (c.generateEmbedding env input).2 = 0) ∧
    (∀ k, env.apiKey = some k →
      supportedChatModels.contains env.configuredModel = false →
      (c.streamText env req).1 =
        Except.error (AIError.configurationError env.configuredModel) ∧
      networkCallCount (c.streamText env req).2 = 0) := by
  constructor
  · intro h
    rw [streamText_missingKey c env req h, generateEmbedding_missingKey c env input h]
    exact ⟨rfl, rfl, rfl, rfl⟩
  · intro k hk hm
    rw [streamText_badModel c env req k hk hm]
    exact ⟨rfl, rfl⟩

theorem C2_validation_raise_amended_witness :
    ((AIClient.create "https://api.openai.com/v1/").streamText
        ⟨none, "gpt-4", ChatNetResult.ok [], EmbedNetResult.ok [] []⟩
        ⟨"p", 10, none, none⟩).1 =
      Except.error (AIError.missingCredential missingCredentialMessage) ∧
    networkCallCount ((AIClient.create "https://api.openai.com/v1/").streamText
        ⟨none, "gpt-4", ChatNetResult.ok [], EmbedNetResult.ok [] []⟩
        ⟨"p", 10, none, none⟩).2 = 0 ∧
    ((AIClient.create "https://api.openai.com/v1/").generateEmbedding
        ⟨none, "gpt-4", ChatNetResult.ok [], EmbedNetResult.ok [] []⟩ "x").1 =
      Except.ok (EmbeddingResult.error (some missingCredentialMessage)) ∧
    networkCallCount ((AIClient.create "https://api.openai.com/v1/").generateEmbedding
        ⟨none, "gpt-4", ChatNetResult.ok [], EmbedNetResult.ok [] []⟩ "x").2 = 0 ∧
    ((AIClient.create "https://api.openai.com/v1/").streamText
        ⟨some "sk-test", "gpt-5", ChatNetResult.ok [], EmbedNetResult.ok [] []⟩
        ⟨"p", 10, none, none⟩).1 =
      Except.error (AIError.configurationError "gpt-5") ∧
    networkCallCount ((AIClient.create "https://api.openai.com/v1/").streamText
        ⟨some "sk-test", "gpt-5", ChatNetResult.ok [], EmbedNetResult.ok [] []⟩
        ⟨"p", 10, none, none⟩).2 = 0 := by
  have h1 := (C2_validation_raise_amended (AIClient.create "https://api.openai.com/v1/")
      ⟨none, "gpt-4", ChatNetResult.ok [], EmbedNetResult.ok [] []⟩
      ⟨"p", 10, none, none⟩ "x").1 rfl
  have h2 := (C2_validation_raise_amended (AIClient.create "https://api.openai.com/v1/")
      ⟨some "sk-test", "gpt-5", ChatNetResult.ok [], EmbedNetResult.ok [] []⟩
      ⟨"p", 10, none, none⟩ "x").2 "sk-test" rfl (by decide)
  exact ⟨h1.1, h1.2.1, h1.2.2.1, h1.2.2.2, h2.1, h2.2⟩

/-- Claim C3: when the credential provider reports the key absent, both
operations produce the `MissingCredential` error (raised by `streamText`,
returned as the error variant by `generateEmbedding`), its message contains
the instruction telling the user how to supply a key, and the network-call
counter of both traces stays at zero. -/
theorem C3_missingCredential_no_network (c : AIClient) (env : Env)
    (req : CompletionRequest) (input : String) (h : env.apiKey = none) :
    (c.streamText env req).1 =
      Except.error (AIError.missingCredential missingCredentialMessage) ∧
    (c.generateEmbedding env input).1 =
      Except.ok (EmbeddingResult.error (some missingCredentialMessage)) ∧
    networkCallCount (c.streamText env req).2 = 0 ∧
    networkCallCount (c.generateEmbedding env input).2 = 0 ∧
    ("Please enter your OpenAI API key".data <:+: missingCredentialMessage.data) := by
  rw [streamText_missingKey c env req h, generateEmbedding_missingKey c env input h]
  exact ⟨rfl, rfl, rfl, rfl, by decide⟩

theorem C3_missingCredential_no_network_witness :
    ((AIClient.create "https://api.openai.com/v1/").streamText
        ⟨none, "gpt-4", ChatNetResult.ok [], EmbedNetResult.ok [] []⟩
        ⟨"p", 10, none, none⟩).1 =
      Except.error (AIError.missingCredential missingCredentialMessage) ∧
    ((AIClient.create "https://api.openai.com/v1/").generateEmbedding
        ⟨none, "gpt-4", ChatNetResult.ok [], EmbedNetResult.ok [] []⟩ "hello").1 =
      Except.ok (EmbeddingResult.error (some missingCredentialMessage)) ∧
    networkCallCount ((AIClient.create "https://api.openai.com/v1/").streamText
        ⟨none, "gpt-4", ChatNetResult.ok [], EmbedNetResult.ok [] []⟩
        ⟨"p", 10, none, none⟩).2 = 0 ∧
    networkCallCount ((AIClient.create "https://api.openai.com/v1/").generateEmbedding
        ⟨none, "gpt-4", ChatNetResult.ok [], EmbedNetResult.ok [] []⟩ "hello").2 = 0 ∧
    ("Please enter your OpenAI API key".data <:+: missingCredentialMessage.data) :=
  C3_missingCredential_no_network (AIClient.create "https://api.openai.com/v1/")
    ⟨none, "gpt-4", ChatNetResult.ok [], EmbedNetResult.ok [] []⟩
    ⟨"p", 10, none, none⟩ "hello" rfl

/-- Claim C6: on a successful provider embedding call, `generateEmbedding`
returns exactly the success variant carrying the provider's output vector
unchanged and the `total_tokens` of the first usage record of the response
metadata. -/
theorem C6_embedding_success (c : AIClient) (env : Env) (input k : String)
    (output : List Rat) (r : EmbeddingResponseRecord)
    (rest : List EmbeddingResponseRecord)
    (hk : env.apiKey = some k)
    (hn : env.embedNet = EmbedNetResult.ok output (r :: rest)) :
    (c.generateEmbedding env input).1 =
      Except.ok (EmbeddingResult.success output r.usage.total_tokens) := by
  rw [generateEmbedding_eq, hk, hn]
  rfl

theorem C6_embedding_success_witness :
    ((AIClient.create "https://api.openai.com/v1/").generateEmbedding
        ⟨some "sk-test", "gpt-4", ChatNetResult.ok [],
         EmbedNetResult.ok [(1 : Rat)/10, (2 : Rat)/10, (3 : Rat)/10] [⟨⟨7⟩⟩]⟩
        "hello").1 =
      Except.ok
        (EmbeddingResult.success [(1 : Rat)/10, (2 : Rat)/10, (3 : Rat)/10] 7) :=
  C6_embedding_success (AIClient.create "https://api.openai.com/v1/")
    ⟨some "sk-test", "gpt-4", ChatNetResult.ok [],
     EmbedNetResult.ok [(1 : Rat)/10, (2 : Rat)/10, (3 : Rat)/10] [⟨⟨7⟩⟩]⟩
    "hello" "sk-test" [(1 : Rat)/10, (2 : Rat)/10, (3 : Rat)/10] ⟨⟨7⟩⟩ [] rfl rfl

/-- Claim C7: every `streamText` call issues exactly one log call — the
literal prompt bracketed by the fixed start/end markers — as the first event
of the trace, before any network dispatch and regardless of the eventual
outcome. -/
theorem C7_prompt_logged_once_before_network (c : AIClient) (env : Env)
    (req : CompletionRequest) :
    ∃ rest, (c.streamText env req).2 =
        Event.log ["--- Start OpenAI prompt ---", req.prompt, "--- End OpenAI prompt ---"]
          :: rest ∧
      ∀ e ∈ rest, Event.isLog e = false := by
  cases hk : env.apiKey with
  | none =>
    rw [streamText_missingKey c env req hk]
    exact ⟨[], rfl, by intro e he; cases he⟩
  | some k =>
    cases hm : supportedChatModels.contains env.configuredModel with
    | false =>
      rw [streamText_badModel c env req k hk hm]
      exact ⟨[], rfl, by intro e he; cases he⟩
    | true =>
      rw [streamText_dispatch c env req k hk hm]
      refine ⟨[Event.networkChat
          ⟨⟨c.openAIBaseUrl, k⟩, env.configuredModel, req.maxTokens,
           req.temperature.getD 0, 0, 0, req.stop⟩ req.prompt], rfl, ?_⟩
      intro e he
      have he2 := List.mem_singleton.mp he
      rw [he2]
      rfl

/-- Claim C8 counterexample: a call whose configured model is outside the
enumeration but whose credential is also absent does not fail with
`ConfigurationError` — it fails with `MissingCredential` instead. -/
theorem C8_invalid_model_counterexample :
    supportedChatModels.contains "gpt-5" = false ∧
    rejectsWithConfigurationError
      ((AIClient.create "https://api.openai.com/v1/").streamText
        ⟨none, "gpt-5", ChatNetResult.ok [], EmbedNetResult.ok [] []⟩
        ⟨"p", 10, none, none⟩).1 = false ∧
    ((AIClient.create "https://api.openai.com/v1/").streamText
        ⟨none, "gpt-5", ChatNetResult.ok [], EmbedNetResult.ok [] []⟩
        ⟨"p", 10, none, none⟩).1 =
      Except.error (AIError.missingCredential missingCredentialMessage) := by
  refine ⟨by decide, rfl, rfl⟩

/-- Claim C8 (amended): whenever the configured model identifier is outside
the supported enumeration and a credential is available, `streamText` fails
with `ConfigurationError` before any network call; when the credential is
also absent, `MissingCredential` is raised instead — still before any network
call. -/
theorem C8_invalid_model_amended (c : AIClient) (env : Env)
    (req : CompletionRequest) (k : String) (hk : env.apiKey = some k)
    (hm : supportedChatModels.contains env.configuredModel = false) :
    (c.streamText env req).1 =
      Except.error (AIError.configurationError env.configuredModel) ∧
    networkCallCount (c.streamText env req).2 = 0 := by
  rw [streamText_badModel c env req k hk hm]
  exact ⟨rfl, rfl⟩

theorem C8_invalid_model_amended_witness :
    ((AIClient.create "https://api.openai.com/v1/").streamText
        ⟨some "sk-test", "gpt-5", ChatNetResult.ok [], EmbedNetResult.ok [] []⟩
        ⟨"p", 10, none, none⟩).1 =
      Except.error (AIError.configurationError "gpt-5") ∧
    networkCallCount ((AIClient.create "https://api.openai.com/v1/").streamText
        ⟨some "sk-test", "gpt-5", ChatNetResult.ok [], EmbedNetResult.ok [] []⟩
        ⟨"p", 10, none, none⟩).2 = 0 :=
  C8_invalid_model_amended (AIClient.create "https://api.openai.com/v1/")
    ⟨some "sk-test", "gpt-5", ChatNetResult.ok [], EmbedNetResult.ok [] []⟩
    ⟨"p", 10, none, none⟩ "sk-test" rfl (by decide)

/-- Claim C9: any settings object that `streamText` hands to the network
layer carries frequency penalty 0 and presence penalty 0 (fixed), the
caller's temperature (0 when omitted), the caller's stop sequences, and the
caller's max token count, together with the caller's literal prompt. -/
theorem C9_chat_settings_fixed_penalties (c : AIClient) (env : Env)
    (req : CompletionRequest) (s : OpenAIChatSettings) (p : String)
    (h : Event.networkChat s p ∈ (c.streamText env req).2) :
    s.frequencyPenalty = 0 ∧ s.presencePenalty = 0 ∧
    s.temperature = req.temperature.getD 0 ∧
    s.stopSequences = req.stop ∧
    s.maxCompletionTokens = req.maxTokens ∧
    p = req.prompt := by
  cases hk : env.apiKey with
  | none =>
    rw [streamText_missingKey c env req hk] at h
    exact Event.noConfusion (List.mem_singleton.mp h)
  | some k =>
    cases hm : supportedChatModels.contains env.configuredModel with
    | false =>
      rw [streamText_badModel c env req k hk hm] at h
      exact Event.noConfusion (List.mem_singleton.mp h)
    | true =>
      rw [streamText_dispatch c env req k hk hm] at h
      rcases List.mem_cons.mp h with h1 | h2
      · exact Event.noConfusion h1
      · have h3 := List.mem_singleton.mp h2
        injection h3 with hs hp
        subst hs
        subst hp
        exact ⟨rfl, rfl, rfl, rfl, rfl, rfl⟩

theorem C9_chat_settings_fixed_penalties_witness :
    (⟨⟨"https://api.openai.com/v1", "sk-test"⟩, "gpt-4", 10, 0, 0, 0,
        some ["END"]⟩ : OpenAIChatSettings).frequencyPenalty = 0 ∧
    (⟨⟨"https://api.openai.com/v1", "sk-test"⟩, "gpt-4", 10, 0, 0, 0,
        some ["END"]⟩ : OpenAIChatSettings).presencePenalty = 0 ∧
    (⟨⟨"https://api.openai.com/v1", "sk-test"⟩, "gpt-4", 10, 0, 0, 0,
        some ["END"]⟩ : OpenAIChatSettings).temperature =
      (⟨"hello", 10, some ["END"], none⟩ : CompletionRequest).temperature.getD 0 ∧
    (⟨⟨"https://api.openai.com/v1", "sk-test"⟩, "gpt-4", 10, 0, 0, 0,
        some ["END"]⟩ : OpenAIChatSettings).stopSequences =
      (⟨"hello", 10, some ["END"], none⟩ : CompletionRequest).stop ∧
    (⟨⟨"https://api.openai.com/v1", "sk-test"⟩, "gpt-4", 10, 0, 0, 0,
        some ["END"]⟩ : OpenAIChatSettings).maxCompletionTokens =
      (⟨"hello", 10, some ["END"], none⟩ : CompletionRequest).maxTokens ∧
    "hello" = (⟨"hello", 10, some ["END"], none⟩ : CompletionRequest).prompt :=
  C9_chat_settings_fixed_penalties (AIClient.create "https://api.openai.com/v1/")
    ⟨some "sk-test", "gpt-4", ChatNetResult.ok ["chunk"], EmbedNetResult.ok [] []⟩
    ⟨"hello", 10, some ["END"], none⟩
    ⟨⟨"https://api.openai.com/v1", "sk-test"⟩, "gpt-4", 10, 0, 0, 0, some ["END"]⟩
    "hello" (by decide)

/-- Claim C10: in `streamText` the credential is resolved before the model
identifier is validated, so with the credential absent the call rejects with
`MissingCredential` — never `ConfigurationError` — even when the configured
model is also outside the enumeration. -/
theorem C10_missingCredential_precedence (c : AIClient) (env : Env)
    (req : CompletionRequest) (h : env.apiKey = none) :
    (c.streamText env req).1 =
      Except.error (AIError.missingCredential missingCredentialMessage) ∧
    rejectsWithConfigurationError (c.streamText env req).1 = false := by
  rw [streamText_missingKey c env req h]
  exact ⟨rfl, rfl⟩

theorem C10_missingCredential_precedence_witness :
    supportedChatModels.contains "gpt-5-nano" = false ∧
    ((AIClient.create "https://api.openai.com/v1/").streamText
        ⟨none, "gpt-5-nano", ChatNetResult.ok [], EmbedNetResult.ok [] []⟩
        ⟨"p", 10, none, none⟩).1 =
      Except.error (AIError.missingCredential missingCredentialMessage) ∧
    rejectsWithConfigurationError
      ((AIClient.create "https://api.openai.com/v1/").streamText
        ⟨none, "gpt-5-nano", ChatNetResult.ok [], EmbedNetResult.ok [] []⟩
        ⟨"p", 10, none, none⟩).1 = false :=
  ⟨by decide,
   (C10_missingCredential_precedence (AIClient.create "https://api.openai.com/v1/")
      ⟨none, "gpt-5-nano", ChatNetResult.ok [], EmbedNetResult.ok [] []⟩
      ⟨"p", 10, none, none⟩ rfl).1,
   (C10_missingCredential_precedence (AIClient.create "https://api.openai.com/v1/")
      ⟨none, "gpt-5-nano", ChatNetResult.ok [], EmbedNetResult.ok [] []⟩
      ⟨"p", 10, none, none⟩ rfl).2⟩
